import Mathlib

/-!
Verification of the designer-record synchronization tool
(`bin/gftools-add-designer.py`) against its specification.

The Python source is shallowly embedded: Python strings are Lean `String`s
(lists of characters), the filesystem is an explicit state value threaded
through the orchestrator, fallible code returns `Except`, and the external
image library call (`Image.thumbnail`) is modelled as a pure function on an
abstract image value.  Each top-level Python function of the source keeps its
name (`process_image`, `gen_info`, `parse_urls`, `make_designer`).
-/

/-! ## Python string primitives used by the source -/

/-- Model of `str.lower` on one character.  Python lowercasing is modelled at
the ASCII level: `A`..`Z` (code points 65..90) map 32 code points up, every
other character is unchanged. -/
def pyLowerChar (c : Char) : Char :=
  if 65 ≤ c.toNat ∧ c.toNat ≤ 90 then Char.ofNat (c.toNat + 32) else c

/-- Model of `str.lower`, character by character. -/
def pyLower (s : String) : String :=
  String.mk (s.data.map pyLowerChar)

/-- Model of `str.replace(old, "")` specialized to a one-character `old`,
the only shape used by the source (`.replace(" ", "")` and
`.replace("-", "")`): every occurrence of the character is removed. -/
def pyRemoveAll (s : String) (c : Char) : String :=
  String.mk (s.data.filter (fun a => a != c))

/-- The directory-key derivation used at line 61 of the source:
`name.lower().replace(" ", "").replace("-", "")`. -/
def normalizeName (name : String) : String :=
  pyRemoveAll (pyRemoveAll (pyLower name) ' ') '-'

/-- Model of `str.startswith`. -/
def pyStartsWith (s pre : String) : Bool :=
  pre.data.isPrefixOf s.data

/-- Model of `str.endswith`. -/
def pyEndsWith (s post : String) : Bool :=
  post.data.isSuffixOf s.data

/-- Model of `os.path.join` for two components: an absolute second component
wins; otherwise the parts are glued with exactly one `/` separator. -/
def pyJoin (a b : String) : String :=
  if pyStartsWith b ("/") then b
  else if a = ("") then b
  else if pyEndsWith a ("/") then a ++ b
  else a ++ ("/") ++ b

/-- Helper for `pyBasename`: characters of the reversed path up to the first
`/`. -/
def takeUntilSlashRev : List Char → List Char
  | [] => []
  | c :: rest => if c = '/' then [] else c :: takeUntilSlashRev rest

/-- Model of `os.path.basename`: the suffix after the last `/`. -/
def pyBasename (s : String) : String :=
  String.mk (takeUntilSlashRev s.data.reverse).reverse

/-- Python `str.split()` whitespace (ASCII part). -/
def isPySpace (c : Char) : Bool :=
  c = ' ' || c = '\t' || c = '\n' || c = '\x0d' || c = '\x0b' || c = '\x0c'

/-- Accumulator worker for `pySplitWs`; the accumulator holds the current
token reversed. -/
def wsSplitAux : List Char → List Char → List (List Char)
  | [], acc => if acc = [] then [] else [acc.reverse]
  | c :: rest, acc =>
    if isPySpace c then
      if acc = [] then wsSplitAux rest [] else acc.reverse :: wsSplitAux rest []
    else wsSplitAux rest (c :: acc)

/-- Model of no-argument `str.split()`: split on runs of whitespace,
discarding empty tokens. -/
def pySplitWs (s : String) : List String :=
  (wsSplitAux s.data []).map String.mk

/-- Model of `str.split("//")`, the only separated split the source performs
(line 86, `u.split('//')[1]`).  Mirrors Python semantics: scanning left to
right, each (non-overlapping) occurrence of `//` ends a segment. -/
def splitDSlash : List Char → List (List Char)
  | '/' :: '/' :: rest => [] :: splitDSlash rest
  | c :: rest =>
    match splitDSlash rest with
    | seg :: segs => (c :: seg) :: segs
    | [] => [[c]]
  | [] => [[]]

/-! ## Error taxonomy (section 7 of the spec) -/

/-- Errors the modelled code can raise.  `notFound` is the `ValueError` of
`process_image` for a missing image path (the spec names it `NotFoundError`);
`notAnImage` models `PIL.Image.open` failing on a non-image file;
`indexError` models the `[1]` subscript of `u.split('//')[1]` on a list with
fewer than two elements; `unboundLocal` models Python's `UnboundLocalError`. -/
inductive PyError where
  | notFound
  | notAnImage
  | indexError
  | unboundLocal
  deriving DecidableEq, Repr

/-! ## Images and the thumbnail operation -/

/-- An in-memory image: its pixel dimensions plus an abstract tag standing
for the pixel contents. -/
structure Img where
  width : Nat
  height : Nat
  data : Nat
  deriving DecidableEq, Repr

/-- Abstract deterministic tag for the pixel contents of a resample: it is a
function of the source contents and the target size only. -/
def resampleData (d w h : Nat) : Nat :=
  Nat.pair d (Nat.pair w h)

/-- Rounding helper of the bounding-box downscale: the floor or the ceiling
of the exact value, whichever the key prefers (the floor on ties), clamped to
at least 1. -/
def round_aspect (number : ℚ) (key : ℕ → ℚ) : ℕ :=
  max (if key ⌊number⌋₊ ≤ key ⌈number⌉₊ then ⌊number⌋₊ else ⌈number⌉₊) 1

/-- The aspect value `width / height` of the bounding-box downscale. -/
def imgAspect (img : Img) : ℚ :=
  (img.width : ℚ) / (img.height : ℚ)

/-- Downscaled width in the tall-image branch (aspect at most 1): the
rounding of `300 * aspect`. -/
def thumbW (img : Img) : ℕ :=
  round_aspect (300 * imgAspect img) (fun n => |imgAspect img - (n : ℚ) / 300|)

/-- Downscaled height in the wide-image branch (aspect above 1): the
rounding of `300 / aspect`. -/
def thumbH (img : Img) : ℕ :=
  round_aspect (300 / imgAspect img)
    (fun n => if n = 0 then 0 else |imgAspect img - 300 / (n : ℚ)|)

/-- Modelled from the spec: `PIL.Image.thumbnail((300, 300))`, the external
image-library call of `process_image` (the library is not part of this
repository).  Per sections 4.2 and 8 of the spec it is the standard
bounding-box downscale: an image already inside the 300×300 box is returned
unchanged, otherwise the image is scaled down, preserving the aspect within
rounding, so that the constrained dimension becomes exactly 300. -/
def pyThumbnail (img : Img) : Img :=
  if 300 ≥ img.width ∧ 300 ≥ img.height then img
  else if imgAspect img ≤ 1 then
    Img.mk (thumbW img) 300 (resampleData img.data (thumbW img) 300)
  else
    Img.mk 300 (thumbH img) (resampleData img.data 300 (thumbH img))

/-! ## Filesystem state -/

/-- Contents of one catalog file: textual, or a decoded image (PNG encoding
is abstracted away; equality of `FileData` values models byte-identical
files). -/
inductive FileData where
  | text (s : String)
  | image (img : Img)
  deriving DecidableEq, Repr

/-- The filesystem: the set of existing directories and a path-indexed
association list of regular files. -/
structure FS where
  dirs : List String
  files : List (String × FileData)
  deriving DecidableEq, Repr

/-- Association-list lookup by path. -/
def alistGet {α : Type} : List (String × α) → String → Option α
  | [], _ => none
  | (q, d) :: rest, p => if q = p then some d else alistGet rest p

/-- Association-list update: replace in place, or append a new binding. -/
def alistSet {α : Type} : List (String × α) → String → α → List (String × α)
  | [], p, d => [(p, d)]
  | (q, e) :: rest, p, d =>
    if q = p then (q, d) :: rest else (q, e) :: alistSet rest p d

/-- Contents of the regular file at `p`, if any. -/
def getFile (fs : FS) (p : String) : Option FileData :=
  alistGet fs.files p

/-- Whole-file write (create or overwrite) at `p`. -/
def setFile (fs : FS) (p : String) (d : FileData) : FS :=
  FS.mk fs.dirs (alistSet fs.files p d)

/-- Lines 63–65 of the source: `if not os.path.isdir(d): os.mkdir(d)`. -/
def mkdirStep (fs : FS) (d : String) : FS :=
  if d ∈ fs.dirs then fs else FS.mk (d :: fs.dirs) fs.files

/-! ## process_image (lines 18–30) -/

/-- Lines 18–30 of the source.  `os.path.isfile` failing raises
`ValueError` (the spec's `NotFoundError`); a file that is not an image makes
`Image.open` fail; otherwise the image is downscaled in place by
`img.thumbnail((300, 300))` and returned.  The two advisory warnings are
console prints and are not modelled. -/
def process_image (fs : FS) (fp : String) : Except PyError Img :=
  match getFile fs fp with
  | none => Except.error PyError.notFound
  | some (FileData.text _) => Except.error PyError.notAnImage
  | some (FileData.image img) => Except.ok (pyThumbnail img)

/-! ## gen_info (lines 33–41) -/

/-- The structured record built by `gen_info`: a `DesignerInfoProto`
message. -/
structure DesignerInfoProto where
  designer : String
  link : String
  avatar_file_name : String
  deriving DecidableEq, Repr

/-- Escaping of one character inside a double-quoted protobuf text-format
string: quote, backslash and newline are escaped, everything else is kept
(UTF-8 text passes through under `as_utf8=True`). -/
def escChar (c : Char) : List Char :=
  if c = '"' then ['\\', '"']
  else if c = '\\' then ['\\', '\\']
  else if c = '\n' then ['\\', 'n']
  else [c]

/-- Escaping of a whole protobuf text-format string literal body. -/
def escapeStr (s : String) : String :=
  String.mk (s.data.foldr (fun c acc => escChar c ++ acc) [])

/-- Modelled from the spec: `text_format.MessageToString(info, as_utf8=True,
use_index_order=True)` for a `DesignerInfoProto`.  The generated protobuf
module `gftools/designers_pb2.py` and the protobuf runtime are not under
`src/`; per section 6 of the spec the encoding is deterministic UTF-8 text
with the stable field order `designer`, `link`, `avatar \x7b file_name \x7d`. -/
def messageToString (info : DesignerInfoProto) : String :=
  ("designer: \"") ++ escapeStr info.designer ++ ("\"\n") ++
  ("link: \"") ++ escapeStr info.link ++ ("\"\n") ++
  ("avatar \x7b\n  file_name: \"") ++ escapeStr info.avatar_file_name ++ ("\"\n\x7d\n")

/-- Lines 33–41 of the source.  The `link` parameter (default `""`) is
accepted but the field is assigned the literal `""`. -/
def gen_info (designer img_path link : String) : String :=
  let info := DesignerInfoProto.mk designer ("") img_path
  messageToString info

/-! ## parse_urls (lines 44–51) -/

/-- Lines 44–51 of the source: split the raw links string on whitespace and
prepend `https://` to every token that does not begin with `http`,
accumulating into `res` in order. -/
def parse_urls (s : String) : List String :=
  let urls := pySplitWs s
  urls.foldl
    (fun res url =>
      res ++ [if pyStartsWith url ("http") then url else ("https://") ++ url])
    []

/-! ## Bio page generation (lines 78–96) -/

/-- Python truthiness of the optional `bio` string (`if bio:`). -/
def truthyStr : Option String → Bool
  | none => false
  | some s => s != ("")

/-- Python truthiness of the optional `urls` list (`if urls:`). -/
def truthyList : Option (List String) → Bool
  | none => false
  | some l => !l.isEmpty

/-- The subscript `u.split('//')[1]` of line 86: the second segment of a
split on `//`, or an `IndexError` when the split has fewer than two
segments. -/
def splitIndex1 (u : String) : Except PyError String :=
  match splitDSlash u.data with
  | _ :: t :: _ => Except.ok (String.mk t)
  | _ => Except.error PyError.indexError

/-- Whether `u.split('//')` has a second segment (no `IndexError`). -/
def hasNetLoc (u : String) : Bool :=
  match splitDSlash u.data with
  | _ :: _ :: _ => true
  | _ => false

/-- Total version of the anchor text of line 86 (second segment of the split
on `//`, empty when absent). -/
def anchorTextOf (u : String) : String :=
  match splitDSlash u.data with
  | _ :: t :: _ => String.mk t
  | _ => ("")

/-- One anchor of line 86: `<a href=\x7bu\x7d>\x7bu.split('//')[1]\x7d</a>`. -/
def anchorHtml (u : String) : Except PyError String :=
  match splitIndex1 u with
  | Except.ok t => Except.ok (("<a href=") ++ u ++ (">") ++ t ++ ("</a>"))
  | Except.error e => Except.error e

/-- Model of `" | ".join`. -/
def joinSep (sep : String) : List String → String
  | [] => ("")
  | [x] => x
  | x :: y :: rest => x ++ sep ++ joinSep sep (y :: rest)

/-- Evaluate a fallible map left to right, stopping at the first error (the
generator inside `" | ".join(...)` raises at the first bad URL). -/
def mapExcept (f : String → Except PyError String) :
    List String → Except PyError (List String)
  | [] => Except.ok []
  | x :: xs =>
    match f x with
    | Except.error e => Except.error e
    | Except.ok y =>
      match mapExcept f xs with
      | Except.error e => Except.error e
      | Except.ok ys => Except.ok (y :: ys)

/-- The first paragraph of line 83: `<p>\x7bbio\x7d</p>`. -/
def bioParagraph (b : String) : String :=
  ("<p>") ++ b ++ ("</p>")

/-- BioPageGenerator.render (section 4.4 of the spec): the `html_text`
computation of lines 80–93 of the source, parameterized by whether
`bio.html` already exists.  `Except.ok none` is the skip signal. -/
def render (bio : Option String) (urls : Option (List String))
    (existing_file_present : Bool) : Except PyError (Option String) :=
  if truthyStr bio then
    if truthyList urls then
      match mapExcept anchorHtml (urls.getD []) with
      | Except.error e => Except.error e
      | Except.ok anchors =>
        Except.ok (some (bioParagraph (bio.getD ("")) ++ ("\n") ++ ("<p>") ++
          joinSep (" | ") anchors ++ ("</p>")))
    else Except.ok (some (bioParagraph (bio.getD (""))))
  else if existing_file_present then Except.ok none
  else Except.ok (some ("N/A"))

/-! ## make_designer (lines 54–96) -/

/-- `designer_dir` of line 62. -/
def designerDir (root name : String) : String :=
  pyJoin root (normalizeName name)

/-- `image_file` of line 69. -/
def avatarPath (root name : String) : String :=
  pyJoin (designerDir root name) (normalizeName name ++ (".png"))

/-- `filename` of line 74. -/
def infoPath (root name : String) : String :=
  pyJoin (designerDir root name) ("info.pb")

/-- `bio_file` of line 79. -/
def bioPath (root name : String) : String :=
  pyJoin (designerDir root name) ("bio.html")

/-- The catalog state right after the unconditional writes of
`make_designer`: the directory creation of lines 63–65, the image save of
line 70 at `image_file`, and the `info.pb` write of lines 72–76 (whose
record names the basename of the saved image).  `image` is the processed
(already downscaled) image. -/
def mdState3 (fs : FS) (root name : String) (image : Img) : FS :=
  setFile
    (setFile (mkdirStep fs (designerDir root name)) (avatarPath root name)
      (FileData.image image))
    (infoPath root name)
    (FileData.text (gen_info name (pyBasename (avatarPath root name)) ("")))

/-- Lines 54–96 of the source, the DesignerRecordSynchronizer.  A raised
exception is an `Except.error` carrying the filesystem state at the moment
of the raise.  Write order follows the source: directory creation, image
processing, image save, `info.pb` (all bundled in `mdState3`), then the
conditional `bio.html` step: the `html_text` computation of lines 80–93 is
`render`, called with the bio-file existence checked on the current state,
and `if html_text:` (line 94) writes only a truthy text. -/
def make_designer (fs : FS) (designer_directory name img_path : String)
    (bio : Option String) (urls : Option (List String)) :
    Except (PyError × FS) FS :=
  match process_image (mkdirStep fs (designerDir designer_directory name)) img_path with
  | Except.error e => Except.error (e, mkdirStep fs (designerDir designer_directory name))
  | Except.ok image =>
    match render bio urls
        (getFile (mdState3 fs designer_directory name image)
          (bioPath designer_directory name)).isSome with
    | Except.error e => Except.error (e, mdState3 fs designer_directory name image)
    | Except.ok none => Except.ok (mdState3 fs designer_directory name image)
    | Except.ok (some html) =>
      if html = ("") then Except.ok (mdState3 fs designer_directory name image)
      else Except.ok (setFile (mdState3 fs designer_directory name image)
        (bioPath designer_directory name) (FileData.text html))

/-! ## main (lines 99–122), no-spreadsheet branch -/

/-- A Python runtime value bound to a local variable of `main`. -/
inductive PyVal where
  | pyNone
  | pyStr (s : String)
  | pyStrList (l : List String)
  deriving DecidableEq, Repr

/-- Conversion of a looked-up local to the optional `bio` argument. -/
def asOptStr : PyVal → Option String
  | PyVal.pyStr s => some s
  | _ => none

/-- Conversion of a looked-up local to the optional `urls` argument. -/
def asOptList : PyVal → Option (List String)
  | PyVal.pyStrList l => some l
  | _ => none

/-- Lines 118–122 of the source, the branch taken when `--spreadsheet` is
not given.  The branch assigns the locals `bio = None` and `url = None`
(note: `url`, not `urls`), then evaluates
`make_designer(args.designers_directory, args.name, args.img_path, bio,
urls)`.  Name resolution of the two argument variables is modelled by an
explicit lookup in the branch's local environment; a failed lookup is
Python's `UnboundLocalError`, raised while evaluating the call's arguments,
before `make_designer` runs. -/
def main_no_spreadsheet (fs : FS)
    (designers_directory name img_path : String) : Except (PyError × FS) FS :=
  let locals : List (String × PyVal) :=
    [(("bio"), PyVal.pyNone), (("url"), PyVal.pyNone)]
  match alistGet locals ("bio"), alistGet locals ("urls") with
  | some b, some u =>
    make_designer fs designers_directory name img_path (asOptStr b) (asOptList u)
  | _, _ => Except.error (PyError.unboundLocal, fs)

/-! ## Concrete catalog states used to instantiate theorems -/

/-- A catalog containing only the root directory and a small source image. -/
def c1fs0 : FS :=
  FS.mk [("cat")] [(("img.png"), FileData.image (Img.mk 100 100 7))]

/-- The state after one successful `make_designer` run on `c1fs0` for the
name `Jo` and image `img.png`. -/
def c1fs1 : FS :=
  FS.mk [("cat/jo"), ("cat")]
    [(("img.png"), FileData.image (Img.mk 100 100 7)),
     (("cat/jo/jo.png"), FileData.image (Img.mk 100 100 7)),
     (("cat/jo/info.pb"),
      FileData.text ("designer: \"Jo\"\nlink: \"\"\navatar \x7b\n  file_name: \"jo.png\"\n\x7d\n")),
     (("cat/jo/bio.html"), FileData.text ("N/A"))]

/-- A catalog with no file at the requested image path. -/
def c2fs0 : FS := FS.mk [("cat")] []

/-- A catalog that already holds a `bio.html` for the designer `Jo`. -/
def c8fs0 : FS :=
  FS.mk [("cat")]
    [(("img.png"), FileData.image (Img.mk 100 100 7)),
     (("cat/jo/bio.html"), FileData.text ("OLD"))]

/-- The state after running `make_designer` on `c8fs0` with no bio. -/
def c8fs1 : FS :=
  FS.mk [("cat/jo"), ("cat")]
    [(("img.png"), FileData.image (Img.mk 100 100 7)),
     (("cat/jo/bio.html"), FileData.text ("OLD")),
     (("cat/jo/jo.png"), FileData.image (Img.mk 100 100 7)),
     (("cat/jo/info.pb"),
      FileData.text ("designer: \"Jo\"\nlink: \"\"\navatar \x7b\n  file_name: \"jo.png\"\n\x7d\n"))]

/-- The final character of a string, used to separate the three per-designer
file paths. -/
def lastCh (s : String) : Option Char := s.data.getLast?

/-! ## Filesystem lemmas -/

theorem alistGet_alistSet {α : Type} (l : List (String × α)) (p q : String) (d : α) :
    alistGet (alistSet l p d) q = if q = p then some d else alistGet l q := by
  induction l with
  | nil =>
    by_cases h : p = q
    · subst h; simp [alistSet, alistGet]
    · simp [alistSet, alistGet, h, Ne.symm h]
  | cons hd tl ih =>
    obtain ⟨k, e⟩ := hd
    by_cases hk : k = p
    · subst hk
      by_cases hq : q = k
      · subst hq; simp [alistSet, alistGet]
      · simp [alistSet, alistGet, hq, Ne.symm hq]
    · by_cases hq : k = q
      · subst hq
        simp [alistSet, alistGet, hk]
      · simp [alistSet, alistGet, hk, hq, ih]

theorem getFile_setFile (fs : FS) (p q : String) (d : FileData) :
    getFile (setFile fs p d) q = if q = p then some d else getFile fs q :=
  alistGet_alistSet fs.files p q d

theorem getFile_mkdirStep (fs : FS) (d : String) (p : String) :
    getFile (mkdirStep fs d) p = getFile fs p := by
  unfold mkdirStep getFile
  split <;> rfl

theorem files_mkdirStep (fs : FS) (d : String) :
    (mkdirStep fs d).files = fs.files := by
  unfold mkdirStep
  split <;> rfl

/-! ## Path-separation lemmas: the three files written inside a designer
directory end in distinct characters, hence are pairwise distinct paths. -/

theorem lastCh_append (a b : String) (h : b ≠ ("")) : lastCh (a ++ b) = lastCh b := by
  obtain ⟨la⟩ := a
  obtain ⟨lb⟩ := b
  have hlb : lb ≠ [] := by
    intro he
    exact h (by rw [he])
  show (la ++ lb).getLast? = lb.getLast?
  rw [List.getLast?_append]
  cases hl : lb.getLast? with
  | none => exact absurd (List.getLast?_eq_none_iff.mp hl) hlb
  | some c => rfl

theorem append_ne_empty_right (a b : String) (h : b ≠ ("")) : a ++ b ≠ ("") := by
  obtain ⟨la⟩ := a
  obtain ⟨lb⟩ := b
  intro he
  apply h
  have : la ++ lb = [] := congrArg String.data he
  have hlb : lb = [] := (List.append_eq_nil.mp this).2
  rw [hlb]

theorem lastCh_pyJoin (a b : String) (h : b ≠ ("")) : lastCh (pyJoin a b) = lastCh b := by
  unfold pyJoin
  split
  · rfl
  · split
    · rfl
    · split
      · exact lastCh_append a b h
      · exact lastCh_append (a ++ ("/")) b h

theorem lastCh_avatarPath (r n : String) : lastCh (avatarPath r n) = some 'g' := by
  unfold avatarPath
  rw [lastCh_pyJoin _ _ (append_ne_empty_right _ _ (by decide))]
  rw [lastCh_append _ _ (by decide)]
  rfl

theorem lastCh_infoPath (r n : String) : lastCh (infoPath r n) = some 'b' := by
  unfold infoPath
  rw [lastCh_pyJoin _ _ (by decide)]
  rfl

theorem lastCh_bioPath (r n : String) : lastCh (bioPath r n) = some 'l' := by
  unfold bioPath
  rw [lastCh_pyJoin _ _ (by decide)]
  rfl

theorem avatarPath_ne_infoPath (r n : String) : avatarPath r n ≠ infoPath r n := by
  intro h
  have := (lastCh_avatarPath r n).symm.trans ((congrArg lastCh h).trans (lastCh_infoPath r n))
  exact absurd this (by decide)

theorem avatarPath_ne_bioPath (r n : String) : avatarPath r n ≠ bioPath r n := by
  intro h
  have := (lastCh_avatarPath r n).symm.trans ((congrArg lastCh h).trans (lastCh_bioPath r n))
  exact absurd this (by decide)

theorem infoPath_ne_bioPath (r n : String) : infoPath r n ≠ bioPath r n := by
  intro h
  have := (lastCh_infoPath r n).symm.trans ((congrArg lastCh h).trans (lastCh_bioPath r n))
  exact absurd this (by decide)

/-! ## Thumbnail lemmas -/

theorem round_aspect_le (q : ℚ) (k : ℕ → ℚ) (h : q ≤ 300) : round_aspect q k ≤ 300 := by
  unfold round_aspect
  have hc : ⌈q⌉₊ ≤ 300 := by
    rw [Nat.ceil_le]
    exact_mod_cast h
  have hf : ⌊q⌋₊ ≤ ⌈q⌉₊ := Nat.floor_le_ceil q
  have hone : (1 : ℕ) ≤ 300 := by omega
  rw [Nat.max_le]
  refine ⟨?_, hone⟩
  split <;> omega

theorem round_aspect_floor_or_ceil (q : ℚ) (k : ℕ → ℚ) :
    round_aspect q k = max ⌊q⌋₊ 1 ∨ round_aspect q k = max ⌈q⌉₊ 1 := by
  unfold round_aspect
  split
  · exact Or.inl rfl
  · exact Or.inr rfl

theorem pyThumbnail_of_small (img : Img) (h1 : img.width ≤ 300) (h2 : img.height ≤ 300) :
    pyThumbnail img = img := by
  unfold pyThumbnail
  exact if_pos ⟨h1, h2⟩

theorem thumbW_le (img : Img) (ha : imgAspect img ≤ 1) : thumbW img ≤ 300 := by
  unfold thumbW
  apply round_aspect_le
  exact mul_le_of_le_one_right (by norm_num) ha

theorem thumbH_le (img : Img) (ha : 1 ≤ imgAspect img) : thumbH img ≤ 300 := by
  unfold thumbH
  apply round_aspect_le
  exact div_le_self (by norm_num) ha

theorem pyThumbnail_width_le (img : Img) : (pyThumbnail img).width ≤ 300 := by
  unfold pyThumbnail
  split
  · next h => exact h.1
  · split
    · next ha => exact thumbW_le img ha
    · exact le_refl 300

theorem pyThumbnail_height_le (img : Img) : (pyThumbnail img).height ≤ 300 := by
  unfold pyThumbnail
  split
  · next h => exact h.2
  · split
    · exact le_refl 300
    · next ha => exact thumbH_le img (le_of_lt (lt_of_not_le ha))

theorem pyThumbnail_idem (img : Img) :
    pyThumbnail (pyThumbnail img) = pyThumbnail img :=
  pyThumbnail_of_small (pyThumbnail img) (pyThumbnail_width_le img) (pyThumbnail_height_le img)

/-! ## Name-normalization lemmas -/

theorem pyLowerChar_eq_of_not {c : Char} (h : ¬(65 ≤ c.toNat ∧ c.toNat ≤ 90)) :
    pyLowerChar c = c := by
  unfold pyLowerChar
  exact if_neg h

theorem pyLowerChar_toNat_of_upper {c : Char} (h1 : 65 ≤ c.toNat) (h2 : c.toNat ≤ 90) :
    (pyLowerChar c).toNat = c.toNat + 32 := by
  unfold pyLowerChar
  rw [if_pos ⟨h1, h2⟩]
  generalize hg : c.toNat = m at h1 h2
  interval_cases m <;> decide

theorem pyLowerChar_idem (c : Char) : pyLowerChar (pyLowerChar c) = pyLowerChar c := by
  by_cases h : 65 ≤ c.toNat ∧ c.toNat ≤ 90
  · have ht := pyLowerChar_toNat_of_upper h.1 h.2
    apply pyLowerChar_eq_of_not
    rw [ht]
    omega
  · rw [pyLowerChar_eq_of_not h, pyLowerChar_eq_of_not h]


theorem normalizeName_data (n : String) :
    (normalizeName n).data =
      ((n.data.map pyLowerChar).filter (fun a => a != ' ')).filter (fun a => a != '-') :=
  rfl

theorem normalizeName_data_filter (n : String) :
    (normalizeName n).data =
      (n.data.map pyLowerChar).filter (fun c => (c != ' ') && (c != '-')) := by
  rw [normalizeName_data, List.filter_filter]
  exact List.filter_congr (fun a _ => Bool.and_comm _ _)

theorem mem_normalizeName_keep {n : String} {c : Char}
    (h : c ∈ (normalizeName n).data) : ((c != ' ') && (c != '-')) = true := by
  rw [normalizeName_data_filter] at h
  exact (List.mem_filter.mp h).2

theorem mem_normalizeName_lower {n : String} {c : Char}
    (h : c ∈ (normalizeName n).data) : pyLowerChar c = c := by
  rw [normalizeName_data_filter] at h
  have hm : c ∈ n.data.map pyLowerChar := (List.mem_filter.mp h).1
  obtain ⟨b, _, hb⟩ := List.mem_map.mp hm
  rw [← hb]
  exact pyLowerChar_idem b

theorem foldl_append_eq_map (f : String → String) (l acc : List String) :
    l.foldl (fun res url => res ++ [f url]) acc = acc ++ l.map f := by
  induction l generalizing acc with
  | nil => simp
  | cons x t ih => simp [List.foldl_cons, ih]

/-! ## Claim theorems -/

/-- Claim C4: the directory-key derivation (NameNormalizer, line 61) is a
pure function of the display name; it equals the lower-cased name with every
space and every hyphen character removed and no other character stripped,
and it is idempotent. -/
theorem name_normalizer_spec (n : String) :
    normalizeName n =
      String.mk ((n.data.map pyLowerChar).filter (fun c => (c != ' ') && (c != '-'))) ∧
    (normalizeName n).data.all (fun c => (c != ' ') && (c != '-')) = true ∧
    normalizeName (normalizeName n) = normalizeName n := by
  refine ⟨?_, ?_, ?_⟩
  · exact congrArg String.mk (normalizeName_data_filter n)
  · rw [List.all_eq_true]
    intro c hc
    exact mem_normalizeName_keep hc
  · have hmap : (normalizeName n).data.map pyLowerChar = (normalizeName n).data := by
      have h1 : (normalizeName n).data.map pyLowerChar =
          (normalizeName n).data.map (fun a => a) :=
        List.map_congr_left (fun a ha => mem_normalizeName_lower ha)
      rw [h1, List.map_id']
    have hq : List.filter (fun a => a != ' ') (normalizeName n).data =
        (normalizeName n).data :=
      List.filter_eq_self.mpr
        (fun a ha => (Bool.and_eq_true_iff.mp (mem_normalizeName_keep ha)).1)
    have hp : List.filter (fun a => a != '-') (normalizeName n).data =
        (normalizeName n).data :=
      List.filter_eq_self.mpr
        (fun a ha => (Bool.and_eq_true_iff.mp (mem_normalizeName_keep ha)).2)
    have hd : (normalizeName (normalizeName n)).data = (normalizeName n).data := by
      rw [normalizeName_data, hmap, hq, hp]
    exact congrArg String.mk hd

/-- Claim C6: `gen_info` serializes the record with exactly the fields
`designer = name`, `link = ""` and `avatar.file_name = avatar_filename`, in
that stable order, as deterministic text: for all inputs, including any
value of the ignored `link` argument, the output is this fixed byte string
of the two field values. -/
theorem gen_info_serialization_spec (name fn lk : String) :
    gen_info name fn lk =
      ("designer: \"") ++ escapeStr name ++ ("\"\n") ++
      ("link: \"") ++ escapeStr ("") ++ ("\"\n") ++
      ("avatar \x7b\n  file_name: \"") ++ escapeStr fn ++ ("\"\n\x7d\n") := rfl

/-- Claim C7: `parse_urls` splits its input on whitespace and, token by
token in order, keeps tokens beginning with `http` unchanged and prepends
`https://` to the rest; with the two spec examples. -/
theorem parse_urls_spec (s : String) :
    parse_urls s = (pySplitWs s).map
      (fun url => if pyStartsWith url ("http") then url else ("https://") ++ url) ∧
    parse_urls ("example.com foo.org") = [("https://example.com"), ("https://foo.org")] ∧
    parse_urls ("http://x.com") = [("http://x.com")] := by
  refine ⟨?_, by decide, by decide⟩
  show (pySplitWs s).foldl _ [] = _
  rw [foldl_append_eq_map
    (fun url => if pyStartsWith url ("http") then url else ("https://") ++ url)]
  simp

/-- Claim C9: in the no-spreadsheet branch of `main` the local environment
binds `bio` and `url` but never `urls`; the call to `make_designer` reads
`urls`, so the lookup fails and the run aborts with an `UnboundLocalError`
and an unchanged catalog state, before `make_designer` executes. -/
theorem main_no_spreadsheet_unbound (fs : FS) (dd name img : String) :
    alistGet [(("bio"), PyVal.pyNone), (("url"), PyVal.pyNone)] ("urls") = none ∧
    main_no_spreadsheet fs dd name img = Except.error (PyError.unboundLocal, fs) :=
  ⟨rfl, rfl⟩

/-- Claim C10: `gen_info` ignores its third (`link`) argument: any two link
values give identical output, and the output is always the serialization of
the record whose `link` field is the empty string. -/
theorem gen_info_link_ignored (d p l1 l2 : String) :
    gen_info d p l1 = gen_info d p l2 ∧
    gen_info d p l1 = messageToString (DesignerInfoProto.mk d ("") p) :=
  ⟨rfl, rfl⟩

/-! ## Bio rendering lemmas and claims -/

theorem anchorHtml_ok (u : String) (h : hasNetLoc u = true) :
    anchorHtml u = Except.ok (("<a href=") ++ u ++ (">") ++ anchorTextOf u ++ ("</a>")) := by
  unfold hasNetLoc at h
  unfold anchorHtml splitIndex1 anchorTextOf
  cases hsp : splitDSlash u.data with
  | nil =>
    rw [hsp] at h
    simp at h
  | cons s0 rest =>
    cases rest with
    | nil =>
      rw [hsp] at h
      simp at h
    | cons s1 r2 => rfl

theorem mapExcept_anchorHtml_ok (us : List String)
    (h : ∀ u ∈ us, hasNetLoc u = true) :
    mapExcept anchorHtml us = Except.ok (us.map
      (fun u => ("<a href=") ++ u ++ (">") ++ anchorTextOf u ++ ("</a>"))) := by
  induction us with
  | nil => rfl
  | cons u t ih =>
    have hu := anchorHtml_ok u (h u (List.mem_cons_self u t))
    have ht := ih (fun v hv => h v (List.mem_cons_of_mem u hv))
    unfold mapExcept
    rw [hu, ht]
    rfl

/-- Claim C3 counterexample: on the URL `https://a//b` the code's visible
anchor text is `a` (the segment between the first `//` and the next one),
not `a//b` (the URL with everything up to and including the first `//`
removed) as the claim states for every URL. -/
theorem render_split_anchor_cex :
    render (some ("Hi")) (some [("https://a//b")]) false =
      Except.ok (some ("<p>Hi</p>\n<p><a href=https://a//b>a</a></p>")) ∧
    ("<p>Hi</p>\n<p><a href=https://a//b>a</a></p>" : String) ≠
      ("<p>Hi</p>\n<p><a href=https://a//b>a//b</a></p>") :=
  ⟨rfl, by decide⟩

/-- Claim C3 as amended: for every non-empty bio and non-empty URL list in
which every URL contains `//`, `render` returns the bio paragraph, a
newline, and a paragraph of ` | `-joined anchors, one per URL in order,
where each href is the URL and the visible text is the segment of the URL
strictly between its first `//` and the following `//` (or the end of the
URL); a URL without `//` raises `IndexError` instead.  The spec's example is
the witness below. -/
theorem render_bio_urls_anchor (b : String) (hb : b ≠ ("")) (us : List String)
    (hus : us ≠ []) (hnet : ∀ u ∈ us, hasNetLoc u = true) (e : Bool) :
    render (some b) (some us) e =
      Except.ok (some (("<p>") ++ b ++ ("</p>") ++ ("\n") ++ ("<p>") ++
        joinSep (" | ")
          (us.map (fun u => ("<a href=") ++ u ++ (">") ++ anchorTextOf u ++ ("</a>"))) ++
        ("</p>"))) := by
  have htb : truthyStr (some b) = true := by
    simp [truthyStr]
    exact hb
  have htu : truthyList (some us) = true := by
    cases us with
    | nil => exact absurd rfl hus
    | cons a t => rfl
  unfold render
  rw [if_pos htb, if_pos htu]
  show (match mapExcept anchorHtml us with
    | Except.error e => Except.error e
    | Except.ok anchors =>
      Except.ok (some (bioParagraph b ++ ("\n") ++ ("<p>") ++
        joinSep (" | ") anchors ++ ("</p>")))) = _
  rw [mapExcept_anchorHtml_ok us hnet]
  rfl

/-- Witness for the amended claim C3, at the spec's own example. -/
theorem render_bio_urls_anchor_witness :
    render (some ("Hello")) (some [("https://example.com/a")]) false =
      Except.ok (some (("<p>") ++ ("Hello") ++ ("</p>") ++ ("\n") ++ ("<p>") ++
        joinSep (" | ")
          ([("https://example.com/a")].map
            (fun u => ("<a href=") ++ u ++ (">") ++ anchorTextOf u ++ ("</a>"))) ++
        ("</p>"))) :=
  render_bio_urls_anchor ("Hello") (by decide) [("https://example.com/a")]
    (by decide) (by decide) false

/-- Claim C5: the thumbnail of `process_image` fits in the 300×300 bounding
box; an image already inside the box is returned with unchanged dimensions
(no upscaling); an oversized image is scaled so its larger output dimension
is exactly 300, and the free dimension is the floor or the ceiling (clamped
to at least 1) of the exact aspect-preserving value. -/
theorem thumbnail_bounding_box_spec (img : Img)
    (hw : 0 < img.width) (hh : 0 < img.height) :
    (pyThumbnail img).width ≤ 300 ∧ (pyThumbnail img).height ≤ 300 ∧
    (if img.width ≤ 300 ∧ img.height ≤ 300 then pyThumbnail img = img
     else
       max (pyThumbnail img).width (pyThumbnail img).height = 300 ∧
       (if imgAspect img ≤ 1 then
          (pyThumbnail img).height = 300 ∧
          ((pyThumbnail img).width =
             max ⌊(300 * img.width : ℚ) / (img.height : ℚ)⌋₊ 1 ∨
           (pyThumbnail img).width =
             max ⌈(300 * img.width : ℚ) / (img.height : ℚ)⌉₊ 1)
        else
          (pyThumbnail img).width = 300 ∧
          ((pyThumbnail img).height =
             max ⌊(300 * img.height : ℚ) / (img.width : ℚ)⌋₊ 1 ∨
           (pyThumbnail img).height =
             max ⌈(300 * img.height : ℚ) / (img.width : ℚ)⌉₊ 1))) := by
  refine ⟨pyThumbnail_width_le img, pyThumbnail_height_le img, ?_⟩
  by_cases h0 : img.width ≤ 300 ∧ img.height ≤ 300
  · rw [if_pos h0]
    exact pyThumbnail_of_small img h0.1 h0.2
  · rw [if_neg h0]
    have h0' : ¬(300 ≥ img.width ∧ 300 ≥ img.height) := h0
    by_cases ha : imgAspect img ≤ 1
    · have heq : pyThumbnail img =
          Img.mk (thumbW img) 300 (resampleData img.data (thumbW img) 300) := by
        unfold pyThumbnail
        rw [if_neg h0', if_pos ha]
      refine ⟨?_, ?_⟩
      · rw [heq]
        show max (thumbW img) 300 = 300
        exact Nat.max_eq_right (thumbW_le img ha)
      · rw [if_pos ha]
        refine ⟨by rw [heq], ?_⟩
        have harg : 300 * imgAspect img =
            (300 * (img.width : ℚ)) / (img.height : ℚ) := by
          unfold imgAspect
          exact (mul_div_assoc _ _ _).symm
        have hW : thumbW img =
            round_aspect ((300 * (img.width : ℚ)) / (img.height : ℚ))
              (fun n => |imgAspect img - (n : ℚ) / 300|) := by
          unfold thumbW
          rw [harg]
        rw [heq]
        show thumbW img = _ ∨ thumbW img = _
        rw [hW]
        exact round_aspect_floor_or_ceil _ _
    · have h32 : 1 ≤ imgAspect img := le_of_lt (lt_of_not_le ha)
      have heq : pyThumbnail img =
          Img.mk 300 (thumbH img) (resampleData img.data 300 (thumbH img)) := by
        unfold pyThumbnail
        rw [if_neg h0', if_neg ha]
      refine ⟨?_, ?_⟩
      · rw [heq]
        show max 300 (thumbH img) = 300
        exact Nat.max_eq_left (thumbH_le img h32)
      · rw [if_neg ha]
        refine ⟨by rw [heq], ?_⟩
        have harg : 300 / imgAspect img =
            (300 * (img.height : ℚ)) / (img.width : ℚ) := by
          unfold imgAspect
          exact div_div_eq_mul_div 300 _ _
        have hH : thumbH img =
            round_aspect ((300 * (img.height : ℚ)) / (img.width : ℚ))
              (fun n => if n = 0 then 0 else |imgAspect img - 300 / (n : ℚ)|) := by
          unfold thumbH
          rw [harg]
        rw [heq]
        show thumbH img = _ ∨ thumbH img = _
        rw [hH]
        exact round_aspect_floor_or_ceil _ _

/-- Witness for claim C5 at the concrete image 100×200. -/
theorem thumbnail_bounding_box_spec_witness :
    (pyThumbnail (Img.mk 100 200 0)).width ≤ 300 ∧
    (pyThumbnail (Img.mk 100 200 0)).height ≤ 300 ∧
    (if (Img.mk 100 200 0).width ≤ 300 ∧ (Img.mk 100 200 0).height ≤ 300 then
       pyThumbnail (Img.mk 100 200 0) = Img.mk 100 200 0
     else
       max (pyThumbnail (Img.mk 100 200 0)).width
         (pyThumbnail (Img.mk 100 200 0)).height = 300 ∧
       (if imgAspect (Img.mk 100 200 0) ≤ 1 then
          (pyThumbnail (Img.mk 100 200 0)).height = 300 ∧
          ((pyThumbnail (Img.mk 100 200 0)).width =
             max ⌊(300 * (Img.mk 100 200 0).width : ℚ) / ((Img.mk 100 200 0).height : ℚ)⌋₊ 1 ∨
           (pyThumbnail (Img.mk 100 200 0)).width =
             max ⌈(300 * (Img.mk 100 200 0).width : ℚ) / ((Img.mk 100 200 0).height : ℚ)⌉₊ 1)
        else
          (pyThumbnail (Img.mk 100 200 0)).width = 300 ∧
          ((pyThumbnail (Img.mk 100 200 0)).height =
             max ⌊(300 * (Img.mk 100 200 0).height : ℚ) / ((Img.mk 100 200 0).width : ℚ)⌋₊ 1 ∨
           (pyThumbnail (Img.mk 100 200 0)).height =
             max ⌈(300 * (Img.mk 100 200 0).height : ℚ) / ((Img.mk 100 200 0).width : ℚ)⌉₊ 1))) :=
  thumbnail_bounding_box_spec (Img.mk 100 200 0) (by decide) (by decide)

/-! ## make_designer lemmas -/

theorem getFile_mdState3_avatar (fs : FS) (root name : String) (image : Img) :
    getFile (mdState3 fs root name image) (avatarPath root name) =
      some (FileData.image image) := by
  unfold mdState3
  rw [getFile_setFile, if_neg (avatarPath_ne_infoPath root name),
    getFile_setFile, if_pos rfl]

theorem getFile_mdState3_info (fs : FS) (root name : String) (image : Img) :
    getFile (mdState3 fs root name image) (infoPath root name) =
      some (FileData.text (gen_info name (pyBasename (avatarPath root name)) (""))) := by
  unfold mdState3
  rw [getFile_setFile, if_pos rfl]

theorem getFile_mdState3_bio (fs : FS) (root name : String) (image : Img) :
    getFile (mdState3 fs root name image) (bioPath root name) =
      getFile fs (bioPath root name) := by
  unfold mdState3
  rw [getFile_setFile, if_neg (Ne.symm (infoPath_ne_bioPath root name)),
    getFile_setFile, if_neg (Ne.symm (avatarPath_ne_bioPath root name)),
    getFile_mkdirStep]

theorem getFile_mdState3_other (fs : FS) (root name : String) (image : Img)
    (p : String) (h1 : p ≠ avatarPath root name) (h2 : p ≠ infoPath root name) :
    getFile (mdState3 fs root name image) p = getFile fs p := by
  unfold mdState3
  rw [getFile_setFile, if_neg h2, getFile_setFile, if_neg h1, getFile_mkdirStep]

theorem process_image_ok_inv (fs : FS) (fp : String) (image : Img)
    (h : process_image fs fp = Except.ok image) :
    ∃ i, getFile fs fp = some (FileData.image i) ∧ image = pyThumbnail i := by
  unfold process_image at h
  cases hg : getFile fs fp with
  | none =>
    rw [hg] at h
    exact Except.noConfusion h
  | some fd =>
    cases fd with
    | text s =>
      rw [hg] at h
      exact Except.noConfusion h
    | image i =>
      rw [hg] at h
      injection h with h'
      exact ⟨i, rfl, h'.symm⟩

theorem make_designer_ok_inv (fs fs' : FS) (root name img : String)
    (bio : Option String) (urls : Option (List String))
    (h : make_designer fs root name img bio urls = Except.ok fs') :
    ∃ i, getFile fs img = some (FileData.image i) ∧
      getFile fs' (avatarPath root name) = some (FileData.image (pyThumbnail i)) ∧
      getFile fs' (infoPath root name) =
        some (FileData.text (gen_info name (pyBasename (avatarPath root name)) (""))) ∧
      ∀ p, p ≠ avatarPath root name →
        (getFile fs' p = getFile fs p ∨ ∃ t, getFile fs' p = some (FileData.text t)) := by
  unfold make_designer at h
  split at h
  · exact Except.noConfusion h
  · next image heq =>
    obtain ⟨i, hgi, himg⟩ := process_image_ok_inv _ _ _ heq
    rw [getFile_mkdirStep] at hgi
    subst himg
    refine ⟨i, hgi, ?_⟩
    split at h
    · exact Except.noConfusion h
    · -- skip branch: fs' is mdState3
      have hfs : mdState3 fs root name (pyThumbnail i) = fs' := by
        injection h
      subst hfs
      refine ⟨getFile_mdState3_avatar _ _ _ _, getFile_mdState3_info _ _ _ _, ?_⟩
      intro p hpA
      by_cases hpI : p = infoPath root name
      · subst hpI
        exact Or.inr ⟨_, getFile_mdState3_info _ _ _ _⟩
      · exact Or.inl (getFile_mdState3_other _ _ _ _ _ hpA hpI)
    · next html hr =>
      by_cases hhe : html = ("")
      · rw [if_pos hhe] at h
        have hfs : mdState3 fs root name (pyThumbnail i) = fs' := by
          injection h
        subst hfs
        refine ⟨getFile_mdState3_avatar _ _ _ _, getFile_mdState3_info _ _ _ _, ?_⟩
        intro p hpA
        by_cases hpI : p = infoPath root name
        · subst hpI
          exact Or.inr ⟨_, getFile_mdState3_info _ _ _ _⟩
        · exact Or.inl (getFile_mdState3_other _ _ _ _ _ hpA hpI)
      · rw [if_neg hhe] at h
        have hfs : setFile (mdState3 fs root name (pyThumbnail i))
            (bioPath root name) (FileData.text html) = fs' := by
          injection h
        subst hfs
        refine ⟨?_, ?_, ?_⟩
        · rw [getFile_setFile, if_neg (avatarPath_ne_bioPath root name)]
          exact getFile_mdState3_avatar _ _ _ _
        · rw [getFile_setFile, if_neg (infoPath_ne_bioPath root name)]
          exact getFile_mdState3_info _ _ _ _
        · intro p hpA
          by_cases hpB : p = bioPath root name
          · subst hpB
            refine Or.inr ⟨html, ?_⟩
            rw [getFile_setFile, if_pos rfl]
          · rw [getFile_setFile, if_neg hpB]
            by_cases hpI : p = infoPath root name
            · subst hpI
              exact Or.inr ⟨_, getFile_mdState3_info _ _ _ _⟩
            · exact Or.inl (getFile_mdState3_other _ _ _ _ _ hpA hpI)

/-- Claim C1: two consecutive `make_designer` runs with the same catalog
root, name and image path (and no interleaving changes: the second run
starts from the state the first one produced) leave byte-identical `info.pb`
and avatar image files — the second run rewrites both files with the same
contents the first run wrote. -/
theorem sync_twice_byte_identical (fs fs1 fs2 : FS) (root name img : String)
    (bio : Option String) (urls : Option (List String))
    (h1 : make_designer fs root name img bio urls = Except.ok fs1)
    (h2 : make_designer fs1 root name img bio urls = Except.ok fs2) :
    getFile fs2 (infoPath root name) = getFile fs1 (infoPath root name) ∧
    getFile fs2 (avatarPath root name) = getFile fs1 (avatarPath root name) := by
  obtain ⟨i, hgi, ha1, hi1, hfr1⟩ := make_designer_ok_inv _ _ _ _ _ _ _ h1
  obtain ⟨j, hgj, ha2, hi2, hfr2⟩ := make_designer_ok_inv _ _ _ _ _ _ _ h2
  have hj : pyThumbnail j = pyThumbnail i := by
    by_cases hpa : img = avatarPath root name
    · rw [hpa, ha1] at hgj
      injection hgj with h'
      injection h' with h''
      subst h''
      exact pyThumbnail_idem i
    · rcases hfr1 img hpa with hsame | ⟨t, htxt⟩
      · rw [hsame, hgi] at hgj
        injection hgj with h'
        injection h' with h''
        rw [h'']
      · rw [htxt] at hgj
        injection hgj with h'
        exact FileData.noConfusion h'
  constructor
  · rw [hi1, hi2]
  · rw [ha1, ha2, hj]

/-- Witness for claim C1: a concrete double run on a 100×100 source image. -/
theorem sync_twice_byte_identical_witness :
    getFile c1fs1 (infoPath ("cat") ("Jo")) = getFile c1fs1 (infoPath ("cat") ("Jo")) ∧
    getFile c1fs1 (avatarPath ("cat") ("Jo")) = getFile c1fs1 (avatarPath ("cat") ("Jo")) :=
  sync_twice_byte_identical c1fs0 c1fs1 c1fs1 ("cat") ("Jo") ("img.png") none none
    (by rfl) (by rfl)

/-- Claim C2 counterexample: invoking the synchronizer with a nonexistent
image path on a catalog that does not yet hold the designer's directory
aborts with `NotFoundError` as claimed, but the catalog state is NOT
unchanged — the designer directory `cat/jo` has already been created when
the image check runs. -/
theorem sync_notfound_creates_dir_cex :
    make_designer c2fs0 ("cat") ("Jo") ("img.png") none none =
      Except.error (PyError.notFound, FS.mk [("cat/jo"), ("cat")] []) ∧
    (FS.mk [("cat/jo"), ("cat")] []).dirs ≠ c2fs0.dirs :=
  ⟨rfl, by decide⟩

/-- Claim C2 as amended: for every path with no existing regular file,
`process_image` fails with `NotFoundError`, and the failure precedes every
FILE write: the run aborts with the catalog's files unchanged, though the
designer directory itself may have been created first (directory creation
precedes the image-existence check). -/
theorem sync_notfound_no_file_write (fs : FS) (root name img : String)
    (bio : Option String) (urls : Option (List String))
    (h : getFile fs img = none) :
    process_image fs img = Except.error PyError.notFound ∧
    make_designer fs root name img bio urls =
      Except.error (PyError.notFound, mkdirStep fs (designerDir root name)) ∧
    (mkdirStep fs (designerDir root name)).files = fs.files := by
  have hp1 : process_image fs img = Except.error PyError.notFound := by
    unfold process_image
    rw [h]
  have hp2 : process_image (mkdirStep fs (designerDir root name)) img =
      Except.error PyError.notFound := by
    unfold process_image
    rw [getFile_mkdirStep, h]
  refine ⟨hp1, ?_, files_mkdirStep fs _⟩
  unfold make_designer
  rw [hp2]

/-- Witness for the amended claim C2 at a concrete empty catalog. -/
theorem sync_notfound_no_file_write_witness :
    process_image c2fs0 ("img.png") = Except.error PyError.notFound ∧
    make_designer c2fs0 ("cat") ("Jo") ("img.png") none none =
      Except.error (PyError.notFound, mkdirStep c2fs0 (designerDir ("cat") ("Jo"))) ∧
    (mkdirStep c2fs0 (designerDir ("cat") ("Jo"))).files = c2fs0.files :=
  sync_notfound_no_file_write c2fs0 ("cat") ("Jo") ("img.png") none none rfl

/-- Claim C8: when `bio` is falsy, a successful run leaves an existing
`bio.html` byte-identical, and writes exactly the placeholder `N/A` when no
`bio.html` existed. -/
theorem sync_bio_absent_behavior (fs fs' : FS) (root name img : String)
    (bio : Option String) (urls : Option (List String))
    (hb : truthyStr bio = false)
    (h : make_designer fs root name img bio urls = Except.ok fs') :
    getFile fs' (bioPath root name) =
      some ((getFile fs (bioPath root name)).getD (FileData.text ("N/A"))) := by
  unfold make_designer at h
  split at h
  · exact Except.noConfusion h
  · next image heq =>
    split at h
    · next e hr =>
      rw [getFile_mdState3_bio] at hr
      unfold render at hr
      simp [hb] at hr
      split at hr
      · exact Except.noConfusion hr
      · exact Except.noConfusion hr
    · next hr =>
      injection h with h'
      subst h'
      rw [getFile_mdState3_bio] at hr
      unfold render at hr
      simp [hb] at hr
      cases hbp : getFile fs (bioPath root name) with
      | none =>
        rw [hbp] at hr
        simp at hr
      | some d =>
        rw [getFile_mdState3_bio, hbp]
        rfl
    · next html hr =>
      rw [getFile_mdState3_bio] at hr
      unfold render at hr
      simp [hb] at hr
      cases hbp : getFile fs (bioPath root name) with
      | some d =>
        rw [hbp] at hr
        simp at hr
      | none =>
        rw [hbp] at hr
        simp at hr
        rw [← hr] at h
        rw [if_neg (by decide)] at h
        injection h with h'
        subst h'
        rw [getFile_setFile, if_pos rfl]
        rfl

/-- Witness for claim C8: a run with no bio over a catalog whose `bio.html`
already exists leaves that file byte-identical. -/
theorem sync_bio_absent_behavior_witness :
    getFile c8fs1 (bioPath ("cat") ("Jo")) =
      some ((getFile c8fs0 (bioPath ("cat") ("Jo"))).getD (FileData.text ("N/A"))) :=
  sync_bio_absent_behavior c8fs0 c8fs1 ("cat") ("Jo") ("img.png") none none rfl (by rfl)
